import Mathlib

/-!
Shallow embedding of `src/streamlit_app.py`, a thin client for a remote
prescription-verification HTTP API, together with proofs of its
specification's claims.

Python dictionaries are modelled as association lists with first-key-wins
lookup (a dict never holds a duplicate key, so the representation is exact
on the reachable values). JSON values are a small inductive type.
-/

namespace QmedApi

/-- A JSON value, as produced by `resp.json()` / consumed by `json=payload`. -/
inductive Json where
  | null : Json
  | bool (b : Bool) : Json
  | str (s : String) : Json
  | num (n : Int) : Json
  | arr (elems : List Json) : Json
  | obj (fields : List (String × Json)) : Json

/-- Python truthiness (`if x:`) of a JSON value: `None`, `False`, `0`, `""`,
`[]` and `{}` are falsy, everything else truthy. -/
def Json.truthy : Json → Bool
  | .null => false
  | .bool b => b
  | .str s => s ≠ ""
  | .num n => n ≠ 0
  | .arr elems => !elems.isEmpty
  | .obj fields => !fields.isEmpty

/-- `d.get(key)` on a Python dict modelled as an association list
(first binding wins; dict keys are unique): `None` (here `none`) when the
key is absent. -/
def dictGet (fields : List (String × Json)) (key : String) : Option Json :=
  (fields.find? (fun p => p.1 = key)).map Prod.snd

/-- `d.get(key, default)`. -/
def dictGetD (fields : List (String × Json)) (key : String) (d : Json) : Json :=
  (dictGet fields key).getD d

/-- An HTTP response as seen by the client: `status_code`, the raw body
`text`, and the value `resp.json()` parses the body to (`body`). -/
structure HttpResponse where
  status_code : Nat
  text : String
  body : Json

/-- The classified outcome of `call_api` (src/streamlit_app.py:25-54).
Each `st.error(...); st.stop()` arm is one error constructor carrying the
data the message displays; the fall-through `return resp.json()` is
`success`. -/
inductive ApiOutcome where
  | missingCredential : ApiOutcome
  | unauthorized : ApiOutcome
  | forbidden : ApiOutcome
  | badRequest (text : String) : ApiOutcome
  | methodNotAllowed : ApiOutcome
  | serviceError (status_code : Nat) (text : String) : ApiOutcome
  | success (body : Json) : ApiOutcome

/-- The status-code classification of `call_api` (src/streamlit_app.py:38-54)
applied to a received response. `resp.ok` in the `requests` library is
`status_code < 400`, so the `elif not resp.ok` arm fires exactly for
status codes ≥ 400 not matched earlier. -/
def classifyResponse (resp : HttpResponse) : ApiOutcome :=
  if resp.status_code = 401 then .unauthorized
  else if resp.status_code = 403 then .forbidden
  else if resp.status_code = 400 then .badRequest resp.text
  else if resp.status_code = 405 then .methodNotAllowed
  else if ¬ (resp.status_code < 400) then .serviceError resp.status_code resp.text
  else .success resp.body

/-- `call_api` (src/streamlit_app.py:25-54). The network is modelled by
`send`, mapping the posted JSON payload to the response; the returned list
records every HTTP request issued, in order, so "zero network calls" is
"the list is empty". `api_key` is `get_api_key()`'s result: `none` when the
secret is absent, and `if not api_key` is also taken for the empty string. -/
def call_api (api_key : Option String) (send : Json → HttpResponse)
    (payload : Json) : List Json × ApiOutcome :=
  match api_key with
  | none => ([], .missingCredential)
  | some k =>
    if k = "" then ([], .missingCredential)
    else
      let resp := send payload
      ([payload], classifyResponse resp)

/-- Python's `str.strip()` (no argument): remove leading and trailing
whitespace. -/
def pyStrip (s : String) : String :=
  String.mk (((s.toList.dropWhile Char.isWhitespace).reverse.dropWhile
    Char.isWhitespace).reverse)

/-- Python's `str.upper()` on the status tokens handled here (ASCII). -/
def pyUpper (s : String) : String :=
  String.mk (s.toList.map Char.toUpper)

/-- The single-verification payload (src/streamlit_app.py:139):
`{"token": value.strip()}` for the Token input type, else
`{"url": value.strip()}`. -/
def singlePayload (isToken : Bool) (value : String) : Json :=
  if isToken then .obj [("token", .str (pyStrip value))]
  else .obj [("url", .str (pyStrip value))]

/-- The batch payload (src/streamlit_app.py:171-173):
`{"tokens": items}` for the Tokens input type, else `{"urls": items}`. -/
def batchPayload (isTokens : Bool) (items : List String) : Json :=
  if isTokens then .obj [("tokens", .arr (items.map .str))]
  else .obj [("urls", .arr (items.map .str))]

/-- The batch input normalization (src/streamlit_app.py:162,167-169):
trim every line, drop the blank ones, and when more than 50 remain warn
(the `Bool` component) and keep only the first 50. -/
def normalizeBatchInput (rawLines : List String) : List String × Bool :=
  let items := (rawLines.map pyStrip).filter (fun s => s ≠ "")
  if items.length > 50 then (items.take 50, true) else (items, false)

/-- The batch response unwrapping (src/streamlit_app.py:178):
`result.get("results", [result])`. On a non-dict payload Python's
`.get` raises `AttributeError`, modelled as `Except.error`. -/
def unwrapBatchResponse (payload : Json) : Except String Json :=
  match payload with
  | .obj fields =>
      .ok (match dictGet fields "results" with
        | some v => v
        | none => .arr [payload])
  | _ => .error "AttributeError"

/-! ### Date formatting (`fmt_date`, src/streamlit_app.py:57-63)

`datetime.fromisoformat` is Python standard-library code; it is modelled
here restricted to the extended ISO-8601 grammar
`YYYY-MM-DD[<sep>HH[:MM[:SS[.f{1,6}]]]][±HH:MM[:SS]]` the application
exchanges (Python additionally accepts rarer basic-format spellings). -/

/-- The naive fields of a parsed `datetime`; `strftime` with the format
used here reads only these (no timezone conversion is performed). -/
structure PyDateTime where
  year : Nat
  month : Nat
  day : Nat
  hour : Nat
  minute : Nat
  second : Nat
  deriving DecidableEq, Repr

/-- Split a character list on every occurrence of `sep`
(like Python's `str.split(sep)`). -/
def splitOnChar (sep : Char) : List Char → List (List Char)
  | [] => [[]]
  | c :: cs =>
    let rest := splitOnChar sep cs
    if c = sep then [] :: rest
    else
      match rest with
      | h :: t => (c :: h) :: t
      | [] => [[c]]

/-- Parse a non-empty all-digit character list as a decimal number. -/
def digitsToNat? (cs : List Char) : Option Nat :=
  if cs ≠ [] ∧ cs.all Char.isDigit then
    some (cs.foldl (fun n c => 10 * n + (c.toNat - 48)) 0)
  else none

/-- Gregorian leap-year test, as `datetime` validates days. -/
def isLeapYear (y : Nat) : Bool :=
  y % 4 = 0 && (y % 100 ≠ 0 || y % 400 = 0)

/-- Days in a month, as `datetime` validates the day field. -/
def daysInMonth (y m : Nat) : Nat :=
  if m = 2 then (if isLeapYear y then 29 else 28)
  else if m = 4 ∨ m = 6 ∨ m = 9 ∨ m = 11 then 30
  else 31

/-- Parse and validate the `YYYY-MM-DD` date part. -/
def parseDatePart (cs : List Char) : Option (Nat × Nat × Nat) :=
  match splitOnChar '-' cs with
  | [y, m, d] =>
    if y.length = 4 ∧ m.length = 2 ∧ d.length = 2 then
      match digitsToNat? y, digitsToNat? m, digitsToNat? d with
      | some yn, some mn, some dn =>
        if 1 ≤ yn ∧ 1 ≤ mn ∧ mn ≤ 12 ∧ 1 ≤ dn ∧ dn ≤ daysInMonth yn mn then
          some (yn, mn, dn)
        else none
      | _, _, _ => none
    else none
  | _ => none

/-- Parse and validate the fractional-seconds suffix (1 to 6 digits). -/
def validFraction (cs : List Char) : Bool :=
  decide (1 ≤ cs.length) && decide (cs.length ≤ 6) && cs.all Char.isDigit

/-- Parse and validate the clock part `HH[:MM[:SS[.ffffff]]]`. -/
def parseClock (cs : List Char) : Option (Nat × Nat × Nat) :=
  match splitOnChar ':' cs with
  | [h] =>
    if h.length = 2 then
      match digitsToNat? h with
      | some hn => if hn ≤ 23 then some (hn, 0, 0) else none
      | none => none
    else none
  | [h, m] =>
    if h.length = 2 ∧ m.length = 2 then
      match digitsToNat? h, digitsToNat? m with
      | some hn, some mn =>
        if hn ≤ 23 ∧ mn ≤ 59 then some (hn, mn, 0) else none
      | _, _ => none
    else none
  | [h, m, s] =>
    if h.length = 2 ∧ m.length = 2 then
      match digitsToNat? h, digitsToNat? m with
      | some hn, some mn =>
        let secPart := splitOnChar '.' s
        match secPart with
        | [sec] =>
          if sec.length = 2 then
            match digitsToNat? sec with
            | some sn =>
              if hn ≤ 23 ∧ mn ≤ 59 ∧ sn ≤ 59 then some (hn, mn, sn) else none
            | none => none
          else none
        | [sec, frac] =>
          if sec.length = 2 ∧ validFraction frac then
            match digitsToNat? sec with
            | some sn =>
              if hn ≤ 23 ∧ mn ≤ 59 ∧ sn ≤ 59 then some (hn, mn, sn) else none
            | none => none
          else none
        | _ => none
      | _, _ => none
    else none
  | _ => none

/-- Validate a UTC-offset suffix `HH:MM[:SS]` (the sign has already been
consumed). The offset does not affect the formatted output: `strftime`
formats the naive fields. -/
def validOffsetBody (cs : List Char) : Bool :=
  match splitOnChar ':' cs with
  | [h, m] =>
    decide (h.length = 2) && decide (m.length = 2) &&
      (match digitsToNat? h, digitsToNat? m with
       | some hn, some mn => decide (hn ≤ 23) && decide (mn ≤ 59)
       | _, _ => false)
  | [h, m, s] =>
    decide (h.length = 2) && decide (m.length = 2) && decide (s.length = 2) &&
      (match digitsToNat? h, digitsToNat? m, digitsToNat? s with
       | some hn, some mn, some sn =>
         decide (hn ≤ 23) && decide (mn ≤ 59) && decide (sn ≤ 59)
       | _, _, _ => false)
  | _ => false

/-- Parse and validate the time part: clock, then an optional
`+`/`-`-signed offset. -/
def parseTimePart (cs : List Char) : Option (Nat × Nat × Nat) :=
  let base := cs.takeWhile (fun c => c ≠ '+' && c ≠ '-')
  let off := cs.drop base.length
  match parseClock base with
  | none => none
  | some t =>
    match off with
    | [] => some t
    | _sign :: offBody => if validOffsetBody offBody then some t else none

/-- Model of `datetime.fromisoformat` on the extended ISO-8601 grammar:
ten date characters `YYYY-MM-DD`, then optionally any single separator
character followed by a time part. -/
def fromisoformat (s : String) : Option PyDateTime :=
  let cs := s.toList
  if cs.length < 10 then none
  else
    match parseDatePart (cs.take 10) with
    | none => none
    | some (y, m, d) =>
      match cs.drop 10 with
      | [] => some ⟨y, m, d, 0, 0, 0⟩
      | _sep :: timecs =>
        match parseTimePart timecs with
        | some (hh, mm, ss) => some ⟨y, m, d, hh, mm, ss⟩
        | none => none

/-- `%b`: abbreviated month name. -/
def monthAbbrev (m : Nat) : String :=
  if m = 1 then "Jan" else if m = 2 then "Feb" else if m = 3 then "Mar"
  else if m = 4 then "Apr" else if m = 5 then "May" else if m = 6 then "Jun"
  else if m = 7 then "Jul" else if m = 8 then "Aug" else if m = 9 then "Sep"
  else if m = 10 then "Oct" else if m = 11 then "Nov" else "Dec"

/-- Zero-pad to two digits (`%d`, `%H`, `%M`). -/
def pad2 (n : Nat) : String :=
  if n < 10 then "0" ++ toString n else toString n

/-- Zero-pad to four digits (`%Y`). -/
def pad4 (n : Nat) : String :=
  if n < 10 then "000" ++ toString n
  else if n < 100 then "00" ++ toString n
  else if n < 1000 then "0" ++ toString n
  else toString n

/-- `strftime("%b %d, %Y %H:%M UTC")` on the parsed fields. -/
def strftimeOutput (dt : PyDateTime) : String :=
  monthAbbrev dt.month ++ " " ++ pad2 dt.day ++ ", " ++ pad4 dt.year ++ " " ++
    pad2 dt.hour ++ ":" ++ pad2 dt.minute ++ " UTC"

/-- `iso.replace("Z", "+00:00")`: the pattern is a single character, so
the left-to-right replacement is character-wise. -/
def replaceZ (s : String) : String :=
  String.mk ((s.toList.map
    (fun c => if c = 'Z' then ['+', '0', '0', ':', '0', '0'] else [c])).flatten)

/-- `fmt_date` (src/streamlit_app.py:57-63): `"—"` for an absent or empty
input, the `strftime`-formatted value when `fromisoformat` succeeds on the
`Z`-replaced string, and the input unchanged when parsing raises. -/
def fmt_date (iso : Option String) : String :=
  match iso with
  | none => "—"
  | some s =>
    if s = "" then "—"
    else
      match fromisoformat (replaceZ s) with
      | some dt => strftimeOutput dt
      | none => s

/-! ### Rendering (src/streamlit_app.py:66-117) -/

/-- `status_badge` (src/streamlit_app.py:66-68): emoji from the `colors`
dict with `⚪` as the `.get` default, then the upper-cased status. -/
def status_badge (status : String) : String :=
  let emoji :=
    if status = "active" then "🟢"
    else if status = "expired" then "🔴"
    else if status = "used" then "🟡"
    else if status = "revoked" then "🔴"
    else "⚪"
  emoji ++ " " ++ pyUpper status

/-- `fmt_date(data.get(key))` where the field value is arbitrary JSON:
a missing key or falsy value gives `"—"`; a string goes through
`fmt_date`; a truthy non-string raises inside the `try` (on `.replace`)
and is returned unchanged by the `except` arm. -/
def fmtDateJson (v : Option Json) : Json :=
  match v with
  | none => .str (fmt_date none)
  | some (.str s) => .str (fmt_date (some s))
  | some j => if j.truthy then j else .str "—"

/-- The widgets `render_single_result` fills on the valid branch
(src/streamlit_app.py:76-99), in source order. `statusBadge` is `none`
when the status value is not a string (Python's `.upper()` would raise
there). -/
structure SingleView where
  prescription_number : Json
  statusBadge : Option String
  patient_name : Json
  doctor_name : Json
  organization : Json
  patient_id : Json
  issued : Json
  valid_until : Json
  diagnosisShown : Option Json
  medications : Json

/-- What `render_single_result` displays: the `st.error` arm for a falsy
`valid` field, or the metric grid. -/
inductive RenderedSingle where
  | invalid (errMsg : Json)
  | valid (view : SingleView)

/-- `render_single_result` (src/streamlit_app.py:71-99) on a response
dict. -/
def render_single_result (data : List (String × Json)) : RenderedSingle :=
  if !(dictGetD data "valid" .null).truthy then
    .invalid (dictGetD data "error" (.str "Unknown error"))
  else
    .valid
      { prescription_number := dictGetD data "prescription_number" (.str "—")
        statusBadge :=
          match dictGetD data "status" (.str "—") with
          | .str s => some (status_badge s)
          | _ => none
        patient_name := dictGetD data "patient_name" (.str "—")
        doctor_name := dictGetD data "doctor_name" (.str "—")
        organization := dictGetD data "organization" (.str "—")
        patient_id := dictGetD data "patient_id" (.str "—")
        issued := fmtDateJson (dictGet data "created_at")
        valid_until := fmtDateJson (dictGet data "valid_until")
        diagnosisShown :=
          if (dictGetD data "diagnosis" .null).truthy then
            some (dictGetD data "diagnosis" .null)
          else none
        medications := dictGetD data "medications" (.arr []) }

/-- The three summary metrics of `render_batch_results`
(src/streamlit_app.py:102-110). -/
structure BatchSummary where
  total : Nat
  valid_count : Nat
  invalid_count : Nat
  deriving DecidableEq, Repr

/-- `render_batch_results`'s summary computation
(src/streamlit_app.py:103-105): `total = len(results)`,
`valid_count = sum(1 for r in results if r.get("valid"))`,
`invalid_count = total - valid_count`. -/
def render_batch_results (results : List (List (String × Json))) :
    BatchSummary :=
  let total := results.length
  let valid_count := (results.filter
    (fun r => (dictGetD r "valid" .null).truthy)).length
  { total := total, valid_count := valid_count,
    invalid_count := total - valid_count }

/-- The keys of a JSON object (empty for non-objects). -/
def keysOf : Json → List String
  | .obj fields => fields.map Prod.fst
  | _ => []

/-! ### Theorems -/

/-- Pushing a map through a filter whose predicate factors through the
mapped function. -/
theorem filter_comp_map {α β : Type} (f : α → β) (p : β → Bool) :
    ∀ l : List α, (l.filter (fun x => p (f x))).map f = (l.map f).filter p := by
  intro l
  induction l with
  | nil => rfl
  | cons x xs ih => by_cases h : p (f x) <;> simp [h, ih]

/-- With a non-empty key, `call_api` issues exactly one request and
returns the classification of its response. -/
theorem call_api_some_eq (k : String) (hk : k ≠ "")
    (send : Json → HttpResponse) (payload : Json) :
    call_api (some k) send payload =
      ([payload], classifyResponse (send payload)) := by
  simp [call_api, hk]

/-- Every status code below 400 falls through all the error guards
(`resp.ok` is `status_code < 400`) and is returned as success. -/
theorem classifyResponse_lt_400 (resp : HttpResponse)
    (h : resp.status_code < 400) :
    classifyResponse resp = .success resp.body := by
  simp only [classifyResponse]
  split_ifs <;> first | rfl | omega

/-- C2: with no API key available (the secret absent, or present but
empty, both falsy in `if not api_key`), `call_api` classifies the call as
`missingCredential` and the request trace is empty: zero HTTP requests are
issued, whatever the network would answer and whatever the payload is. -/
theorem call_api_missing_credential (send : Json → HttpResponse)
    (payload : Json) :
    call_api none send payload = ([], .missingCredential) ∧
    call_api (some "") send payload = ([], .missingCredential) :=
  ⟨rfl, rfl⟩

/-- C1 counterexample: a 304 response is not a 2xx status, yet `call_api`
returns it as a success (`resp.ok` in `requests` is `status_code < 400`,
so the `elif not resp.ok` guard does not fire for 3xx), not as the
`serviceError` the claim's table demands. -/
theorem call_api_3xx_not_service_error :
    (call_api (some "k") (fun _ => ⟨304, "not modified", Json.null⟩)
      (Json.obj [])).2 = ApiOutcome.success Json.null ∧
    ApiOutcome.success Json.null ≠
      ApiOutcome.serviceError 304 "not modified" :=
  ⟨rfl, fun h => ApiOutcome.noConfusion h⟩

/-- C1 amended: with a non-empty key, `call_api` issues exactly one
request and classifies the response by status code: 2xx parses the body
as JSON and returns it untouched; 401, 403, 400 and 405 map to their
dedicated error kinds; every other status ≥ 400 maps to `serviceError`
carrying the status code and raw body; and every remaining status < 400
(1xx and 3xx, via the `resp.ok` test) is also returned as success. -/
theorem call_api_classifies_by_status (k : String) (hk : k ≠ "")
    (resp : HttpResponse) (payload : Json) :
    call_api (some k) (fun _ => resp) payload =
      ([payload], classifyResponse resp) ∧
    (200 ≤ resp.status_code → resp.status_code ≤ 299 →
      classifyResponse resp = .success resp.body) ∧
    (resp.status_code = 401 → classifyResponse resp = .unauthorized) ∧
    (resp.status_code = 403 → classifyResponse resp = .forbidden) ∧
    (resp.status_code = 400 → classifyResponse resp = .badRequest resp.text) ∧
    (resp.status_code = 405 → classifyResponse resp = .methodNotAllowed) ∧
    (400 ≤ resp.status_code →
      resp.status_code ∉ ([400, 401, 403, 405] : List Nat) →
      classifyResponse resp = .serviceError resp.status_code resp.text) ∧
    (resp.status_code < 400 → classifyResponse resp = .success resp.body) := by
  refine ⟨by simp [call_api, hk], ?_, ?_, ?_, ?_, ?_, ?_, ?_⟩ <;>
    · intros
      simp only [classifyResponse]
      split_ifs <;> first | rfl | omega | simp_all

/-- Witness for `call_api_classifies_by_status` at status 200. -/
theorem call_api_classifies_by_status_witness :
    classifyResponse ⟨200, "", Json.null⟩ = ApiOutcome.success Json.null :=
  (call_api_classifies_by_status "k" (by decide) ⟨200, "", Json.null⟩
    (Json.obj [])).2.1 (by decide) (by decide)

/-- C3 counterexample: when the `results` key holds a non-sequence value,
`result.get("results", [result])` returns that value itself, not the
one-element sequence containing the whole payload that the claim's
"otherwise" branch demands. -/
theorem unwrap_nonsequence_results_value :
    unwrapBatchResponse (Json.obj [("results", Json.num 5)]) =
      Except.ok (Json.num 5) ∧
    Json.num 5 ≠ Json.arr [Json.obj [("results", Json.num 5)]] :=
  ⟨rfl, fun h => Json.noConfusion h⟩

/-- C3 amended: on a JSON object, `unwrapBatchResponse` returns the value
under the `results` key as-is whenever the key exists (whether or not
that value is a sequence), and the one-element sequence containing the
whole payload when the key is absent; on a non-object payload, `.get`
raises `AttributeError`. In particular
`unwrapBatchResponse {"results": [A, B]} = [A, B]` and
`unwrapBatchResponse A = [A]` for any object `A` without a `results`
key. -/
theorem unwrapBatchResponse_cases (fields : List (String × Json)) :
    (∀ v, dictGet fields "results" = some v →
      unwrapBatchResponse (Json.obj fields) = .ok v) ∧
    (dictGet fields "results" = none →
      unwrapBatchResponse (Json.obj fields) =
        .ok (Json.arr [Json.obj fields])) ∧
    (∀ elems, unwrapBatchResponse (Json.arr elems) =
      .error "AttributeError") := by
  refine ⟨fun v hv => ?_, fun hn => ?_, fun elems => rfl⟩
  · simp [unwrapBatchResponse, hv]
  · simp [unwrapBatchResponse, hn]

/-- Witness for `unwrapBatchResponse_cases`: a two-element `results`
sequence is returned as-is, and an object without the key wraps. -/
theorem unwrapBatchResponse_cases_witness :
    unwrapBatchResponse
        (Json.obj [("results", Json.arr [Json.null, Json.bool true])]) =
      Except.ok (Json.arr [Json.null, Json.bool true]) :=
  (unwrapBatchResponse_cases
    [("results", Json.arr [Json.null, Json.bool true])]).1 _ rfl

/-- C4: each request variant serializes to a JSON object whose key list
is exactly the one key matching the variant — so no body holds two of
`token`, `url`, `tokens`, `urls` — with the singular keys holding a
single (stripped) string and the plural keys an array of strings. -/
theorem payload_exactly_one_key (isToken isTokens : Bool) (value : String)
    (items : List String) :
    (keysOf (singlePayload isToken value)).length = 1 ∧
    keysOf (singlePayload isToken value) =
      [if isToken then "token" else "url"] ∧
    singlePayload isToken value =
      Json.obj [(if isToken then "token" else "url",
        Json.str (pyStrip value))] ∧
    (keysOf (batchPayload isTokens items)).length = 1 ∧
    keysOf (batchPayload isTokens items) =
      [if isTokens then "tokens" else "urls"] ∧
    batchPayload isTokens items =
      Json.obj [(if isTokens then "tokens" else "urls",
        Json.arr (items.map Json.str))] := by
  cases isToken <;> cases isTokens <;>
    simp [singlePayload, batchPayload, keysOf]

/-- C5: when the trimmed non-blank lines number more than 50,
`normalizeBatchInput` signals the truncation warning and keeps exactly
the first 50 entries in their original order (the output has length 50
and agrees with the untruncated list position by position); with 50 or
fewer entries, the list is passed on unchanged with no warning. -/
theorem normalizeBatchInput_truncates (rawLines : List String) :
    ((((rawLines.map pyStrip).filter (fun s => s ≠ "")).length > 50 →
      normalizeBatchInput rawLines =
        (((rawLines.map pyStrip).filter (fun s => s ≠ "")).take 50, true) ∧
      (normalizeBatchInput rawLines).1.length = 50 ∧
      ∀ i, i < 50 → (normalizeBatchInput rawLines).1[i]? =
        ((rawLines.map pyStrip).filter (fun s => s ≠ ""))[i]?)) ∧
    (((rawLines.map pyStrip).filter (fun s => s ≠ "")).length ≤ 50 →
      normalizeBatchInput rawLines =
        ((rawLines.map pyStrip).filter (fun s => s ≠ ""), false)) := by
  constructor
  · intro h
    have he : normalizeBatchInput rawLines =
        (((rawLines.map pyStrip).filter (fun s => s ≠ "")).take 50, true) := by
      simp only [normalizeBatchInput]
      rw [if_pos h]
    refine ⟨he, ?_, ?_⟩
    · rw [he]
      simp only [List.length_take]
      omega
    · intro i hi
      rw [he, List.getElem?_take]
      simp [hi]
  · intro h
    simp only [normalizeBatchInput]
    rw [if_neg (by omega)]

/-- Witness for `normalizeBatchInput_truncates`: 51 identical lines are
cut to the first 50 with the warning, and a short input passes through. -/
theorem normalizeBatchInput_truncates_witness :
    normalizeBatchInput (List.replicate 51 "a") =
      ((((List.replicate 51 "a").map pyStrip).filter
        (fun s => s ≠ "")).take 50, true) :=
  ((normalizeBatchInput_truncates (List.replicate 51 "a")).1 (by decide)).1

/-- C6: the normalized batch list is a sublist of the trimmed lines (so
original order is preserved), contains no blank entry, consists of
trimmed input lines, is insensitive to deleting the blank lines up front
(blank lines do not count toward the 50-item cap), and — whenever the cap
is not exceeded — equals the trimmed non-blank lines exactly, so
duplicates are forwarded as-is with no deduplication. -/
theorem normalizeBatchInput_lines (rawLines : List String) :
    List.Sublist (normalizeBatchInput rawLines).1 (rawLines.map pyStrip) ∧
    (∀ s ∈ (normalizeBatchInput rawLines).1, s ≠ "") ∧
    (∀ s ∈ (normalizeBatchInput rawLines).1, ∃ l ∈ rawLines, s = pyStrip l) ∧
    normalizeBatchInput (rawLines.filter (fun l => pyStrip l ≠ "")) =
      normalizeBatchInput rawLines ∧
    (((rawLines.map pyStrip).filter (fun s => s ≠ "")).length ≤ 50 →
      (normalizeBatchInput rawLines).1 =
        (rawLines.map pyStrip).filter (fun s => s ≠ "")) := by
  have hsub : List.Sublist (normalizeBatchInput rawLines).1
      ((rawLines.map pyStrip).filter (fun s => s ≠ "")) := by
    simp only [normalizeBatchInput]
    split_ifs with h
    · exact List.take_sublist 50 _
    · exact List.Sublist.refl _
  have hmem : ∀ s ∈ (normalizeBatchInput rawLines).1,
      s ∈ (rawLines.map pyStrip).filter (fun s => s ≠ "") :=
    fun s hs => hsub.subset hs
  refine ⟨hsub.trans (List.filter_sublist _), fun s hs => ?_,
    fun s hs => ?_, ?_, fun h => ?_⟩
  · have := hmem s hs
    simp only [List.mem_filter] at this
    simpa using this.2
  · have := hmem s hs
    simp only [List.mem_filter, List.mem_map] at this
    obtain ⟨⟨l, hl, hls⟩, -⟩ := this
    exact ⟨l, hl, hls.symm⟩
  · simp only [normalizeBatchInput]
    rw [filter_comp_map pyStrip (fun s => s ≠ "") rawLines,
      List.filter_filter]
    simp only [Bool.and_self]
  · simp only [normalizeBatchInput]
    rw [if_neg (by omega)]

/-- Witness for `normalizeBatchInput_lines`: blanks are dropped, order
and the duplicate are kept. -/
theorem normalizeBatchInput_lines_witness :
    (normalizeBatchInput ["  a ", "", "b", "a", "   "]).1 =
      ((["  a ", "", "b", "a", "   "].map pyStrip).filter
        (fun s => s ≠ "")) :=
  (normalizeBatchInput_lines ["  a ", "", "b", "a", "   "]).2.2.2.2
    (by decide)

/-- C7: a status string outside the known set gets the fallback `⚪`
badge rather than an error, and a result dict with `valid = true` and
such a status is still rendered on the valid branch, its badge in the
"unknown" display category. -/
theorem unknown_status_accepted (status : String)
    (h : status ∉ (["active", "expired", "used", "revoked"] : List String))
    (data : List (String × Json))
    (hv : dictGet data "valid" = some (Json.bool true))
    (hs : dictGet data "status" = some (Json.str status)) :
    status_badge status = "⚪ " ++ pyUpper status ∧
    ∃ view, render_single_result data = RenderedSingle.valid view ∧
      view.statusBadge = some ("⚪ " ++ pyUpper status) := by
  simp only [List.mem_cons, List.mem_singleton, not_or] at h
  obtain ⟨h1, h2, h3, h4, -⟩ := h
  have hb : status_badge status = "⚪ " ++ pyUpper status := by
    simp only [status_badge, if_neg h1, if_neg h2, if_neg h3, if_neg h4]
    rfl
  refine ⟨hb, ?_⟩
  have hval : (dictGetD data "valid" Json.null).truthy = true := by
    simp [dictGetD, hv, Json.truthy]
  simp only [render_single_result, hval, Bool.not_true, Bool.false_eq_true,
    if_false]
  refine ⟨_, rfl, ?_⟩
  simp only [dictGetD, hs, Option.getD_some, hb]

/-- Witness for `unknown_status_accepted` at the unknown status
`"pending"`. -/
theorem unknown_status_accepted_witness :
    status_badge "pending" = "⚪ " ++ pyUpper "pending" :=
  (unknown_status_accepted "pending" (by decide)
    [("valid", Json.bool true), ("status", Json.str "pending")]
    rfl rfl).1

/-- C8: for a batch result list whose elements carry boolean `valid`
fields (when present at all), the rendered summary satisfies
`total = length(results)`, `valid_count` counts exactly the elements with
`valid = true`, `valid_count ≤ total`, and
`invalid_count = total - valid_count`. -/
theorem render_batch_results_invariant
    (results : List (List (String × Json)))
    (hb : ∀ r ∈ results, ∀ j, dictGet r "valid" = some j →
      ∃ b, j = Json.bool b) :
    (render_batch_results results).total = results.length ∧
    (render_batch_results results).valid_count =
      results.countP (fun r =>
        match dictGet r "valid" with
        | some (Json.bool true) => true
        | _ => false) ∧
    (render_batch_results results).valid_count ≤
      (render_batch_results results).total ∧
    (render_batch_results results).invalid_count =
      (render_batch_results results).total -
        (render_batch_results results).valid_count := by
  refine ⟨rfl, ?_, ?_, rfl⟩
  · simp only [render_batch_results, List.countP_eq_length_filter]
    congr 1
    apply List.filter_congr
    intro r hr
    rcases hvr : dictGet r "valid" with - | j
    · simp [dictGetD, hvr, Json.truthy]
    · obtain ⟨b, rfl⟩ := hb r hr j hvr
      cases b <;> simp [dictGetD, hvr, Json.truthy]
  · exact List.length_filter_le _ _

/-- Witness for `render_batch_results_invariant` on one valid, one
invalid and one field-less result. -/
theorem render_batch_results_invariant_witness :
    (render_batch_results [[("valid", Json.bool true)],
        [("valid", Json.bool false)], []]).valid_count =
      ([[("valid", Json.bool true)], [("valid", Json.bool false)],
        []] : List (List (String × Json))).countP (fun r =>
          match dictGet r "valid" with
          | some (Json.bool true) => true
          | _ => false) :=
  (render_batch_results_invariant
    [[("valid", Json.bool true)], [("valid", Json.bool false)], []]
    (by
      intro r hr j hj
      simp only [List.mem_cons, List.not_mem_nil, or_false] at hr
      rcases hr with rfl | rfl | rfl
      · exact ⟨true, by simpa [dictGet] using hj.symm⟩
      · exact ⟨false, by simpa [dictGet] using hj.symm⟩
      · simp [dictGet] at hj)).2.1

/-- C9: a 2xx response is returned by `call_api` as plain success data
even when its payload carries `valid = false` — no error classification
happens at the transport layer — and the invalidity surfaces only in the
rendering layer, where `render_single_result` takes the error arm
carrying the payload's `error` string (defaulting to "Unknown error"). -/
theorem business_invalidity_is_data (k : String) (hk : k ≠ "")
    (resp : HttpResponse) (h2 : 200 ≤ resp.status_code)
    (h3 : resp.status_code ≤ 299) (payload : Json)
    (data : List (String × Json))
    (hv : (dictGetD data "valid" Json.null).truthy = false) :
    (call_api (some k) (fun _ => resp) payload).2 =
      ApiOutcome.success resp.body ∧
    render_single_result data =
      RenderedSingle.invalid (dictGetD data "error"
        (Json.str "Unknown error")) := by
  constructor
  · rw [call_api_some_eq k hk]
    exact classifyResponse_lt_400 resp (by omega)
  · simp only [render_single_result, hv]
    rfl

/-- Witness for `business_invalidity_is_data`: a 200 response whose body
says the prescription is expired. -/
theorem business_invalidity_is_data_witness :
    (call_api (some "k")
        (fun _ => ⟨200, "",
          Json.obj [("valid", Json.bool false),
            ("error", Json.str "expired")]⟩) (Json.obj [])).2 =
      ApiOutcome.success (Json.obj [("valid", Json.bool false),
        ("error", Json.str "expired")]) ∧
    render_single_result
        [("valid", Json.bool false), ("error", Json.str "expired")] =
      RenderedSingle.invalid (dictGetD
        [("valid", Json.bool false), ("error", Json.str "expired")]
        "error" (Json.str "Unknown error")) :=
  business_invalidity_is_data "k" (by decide)
    ⟨200, "", Json.obj [("valid", Json.bool false),
      ("error", Json.str "expired")]⟩ (by decide) (by decide)
    (Json.obj [])
    [("valid", Json.bool false), ("error", Json.str "expired")] rfl

/-- C10: `fmt_date` is a total function: it returns `"—"` on an absent or
empty input, and on any other string it returns either the
`strftime`-formatted timestamp (when the `Z`-replaced input parses) or
the input unchanged (when parsing fails) — never an exception. -/
theorem fmt_date_total (s : String) (hs : s ≠ "") :
    fmt_date none = "—" ∧ fmt_date (some "") = "—" ∧
    ((∃ dt, fromisoformat (replaceZ s) = some dt ∧
        fmt_date (some s) = strftimeOutput dt) ∨
      (fromisoformat (replaceZ s) = none ∧ fmt_date (some s) = s)) := by
  refine ⟨rfl, rfl, ?_⟩
  rcases h : fromisoformat (replaceZ s) with - | dt
  · exact Or.inr ⟨rfl, by simp [fmt_date, hs, h]⟩
  · exact Or.inl ⟨dt, rfl, by simp [fmt_date, hs, h]⟩

/-- Witness for `fmt_date_total` at a parsing and a non-parsing input. -/
theorem fmt_date_total_witness :
    fmt_date none = "—" ∧ fmt_date (some "") = "—" ∧
    ((∃ dt, fromisoformat (replaceZ "2024-01-05T10:30:00Z") = some dt ∧
        fmt_date (some "2024-01-05T10:30:00Z") = strftimeOutput dt) ∨
      (fromisoformat (replaceZ "2024-01-05T10:30:00Z") = none ∧
        fmt_date (some "2024-01-05T10:30:00Z") = "2024-01-05T10:30:00Z")) :=
  fmt_date_total "2024-01-05T10:30:00Z" (by decide)

end QmedApi
